import Mathlib

/-!
Verification of the pointer-tracking / colour-derivation core of
bennypowers/controller-host-color-picker.

The definitions below are a shallow embedding of the JavaScript sources:
`src/color-picker.js` (the `ColorPicker` custom element) and the
`MouseController` reactive controller whose source appears in the tutorial
text (`src/unnamed/part_000`).  JavaScript numbers are modelled as rationals,
extended with NaN and the two infinities where division by zero can produce
them; machine floats never overflow at the magnitudes these claims concern.
-/

/-- Result type of the JavaScript arithmetic in `ColorPicker.update`: a finite
number (modelled as a rational) or one of the IEEE non-finite values NaN,
+Infinity, -Infinity that `x / 0` can produce. -/
inductive JSNum where
  | fin (q : ℚ)
  | nan
  | inf
  | ninf
deriving DecidableEq, Repr

/-- JavaScript division `a / b` of two finite numbers: division by zero yields
NaN (for `0 / 0`) or a signed infinity, otherwise exact rational division. -/
def jsDiv (a b : ℚ) : JSNum :=
  if b = 0 then
    (if a = 0 then .nan else if 0 < a then .inf else .ninf)
  else .fin (a / b)

/-- JavaScript multiplication of an extended number by a finite constant `c`
(the program multiplies by 360 and by 100). -/
def JSNum.mulC (c : ℚ) : JSNum → JSNum
  | .fin q => .fin (q * c)
  | .nan => .nan
  | .inf => if c = 0 then .nan else if 0 < c then .inf else .ninf
  | .ninf => if c = 0 then .nan else if 0 < c then .ninf else .inf

/-- `Math.floor`: floors a finite value, fixes NaN and the infinities. -/
def JSNum.floorJS : JSNum → JSNum
  | .fin q => .fin ((⌊q⌋ : ℤ) : ℚ)
  | .nan => .nan
  | .inf => .inf
  | .ninf => .ninf

/-- JavaScript subtraction `c - v` with a finite left operand (the program
computes `100 - Math.floor(...)`). -/
def JSNum.subFrom (c : ℚ) : JSNum → JSNum
  | .fin q => .fin (c - q)
  | .nan => .nan
  | .inf => .ninf
  | .ninf => .inf

/-- Viewport pointer coordinates (`e.clientX`, `e.clientY`). -/
structure Pos where
  x : ℚ
  y : ℚ
deriving DecidableEq, Repr

/-- State owned by `MouseController`: `down` (button state) and `pos`
(last observed pointer position), exactly the two fields of the class. -/
structure MouseState where
  down : Bool
  pos : Pos
deriving DecidableEq, Repr

/-- Layout box of the host element as `update()` reads it: `clientLeft`,
`clientTop`, `clientWidth`, `clientHeight`. -/
structure Layout where
  clientLeft : ℚ
  clientTop : ℚ
  clientWidth : ℚ
  clientHeight : ℚ
deriving DecidableEq, Repr

/-- Value of the `--loupe-border-color` custom property. -/
inductive BorderColor where
  | white
  | black
deriving DecidableEq, Repr

/-- The custom properties `update()` publishes on `this.style`; `none` means
the property has never been set. -/
structure StyleMap where
  x : Option ℚ
  y : Option ℚ
  hue : Option JSNum
  saturation : Option JSNum
  loupeBorderColor : Option BorderColor
deriving DecidableEq, Repr

/-- Style state of a freshly constructed element: no custom property set. -/
def s0 : StyleMap := ⟨none, none, none, none, none⟩

/-- Shallow embedding of `ColorPicker.update` (src/color-picker.js lines
22-36).  Returns the style map after the call together with the number of
`#pick()` invocations the call performs (0 or 1).  The early return
`if (x > this.clientWidth || y > this.clientHeight) return;` leaves the style
untouched and skips the pick. -/
def ColorPicker.update (mouse : MouseState) (el : Layout) (style : StyleMap) :
    StyleMap × Nat :=
  let x := mouse.pos.x - el.clientLeft
  let y := mouse.pos.y - el.clientTop
  if x > el.clientWidth ∨ y > el.clientHeight then (style, 0)
  else
    let hue := ((jsDiv x el.clientWidth).mulC 360).floorJS
    let saturation := JSNum.subFrom 100 (((jsDiv y el.clientHeight).mulC 100).floorJS)
    (⟨some x, some y, some hue, some saturation,
      some (if mouse.down then .white else .black)⟩,
     if mouse.down then 1 else 0)

/-- Spec-style in-bounds predicate: `localPosition` within
`[0, width) × [0, height)` (spec §3, `inBounds`). -/
def specInBounds (mouse : MouseState) (el : Layout) : Prop :=
  0 ≤ mouse.pos.x - el.clientLeft ∧ mouse.pos.x - el.clientLeft < el.clientWidth ∧
  0 ≤ mouse.pos.y - el.clientTop ∧ mouse.pos.y - el.clientTop < el.clientHeight

instance (mouse : MouseState) (el : Layout) : Decidable (specInBounds mouse el) := by
  unfold specInBounds; infer_instance

/-- The 400×400 box at origin used by the spec's scenarios. -/
def layout400 : Layout := ⟨0, 0, 400, 400⟩

section UpdateLemmas

variable (m : MouseState) (el : Layout) (s : StyleMap)

/-- Unfolding of `ColorPicker.update` when the guard does not fire. -/
lemma update_noGuard
    (hx : m.pos.x - el.clientLeft ≤ el.clientWidth)
    (hy : m.pos.y - el.clientTop ≤ el.clientHeight) :
    ColorPicker.update m el s =
      (⟨some (m.pos.x - el.clientLeft), some (m.pos.y - el.clientTop),
        some (((jsDiv (m.pos.x - el.clientLeft) el.clientWidth).mulC 360).floorJS),
        some (JSNum.subFrom 100
          (((jsDiv (m.pos.y - el.clientTop) el.clientHeight).mulC 100).floorJS)),
        some (if m.down then .white else .black)⟩,
       if m.down then 1 else 0) := by
  unfold ColorPicker.update
  rw [if_neg]
  push_neg
  exact ⟨hx, hy⟩

/-- Unfolding of `ColorPicker.update` when the guard fires. -/
lemma update_guard
    (h : el.clientWidth < m.pos.x - el.clientLeft ∨
         el.clientHeight < m.pos.y - el.clientTop) :
    ColorPicker.update m el s = (s, 0) := by
  unfold ColorPicker.update
  rw [if_pos h]

/-- With a nonzero denominator the division-multiplication-floor pipeline is
the exact rational formula. -/
lemma pipeline_fin (a b c : ℚ) (hb : b ≠ 0) :
    ((jsDiv a b).mulC c).floorJS = .fin ((⌊a / b * c⌋ : ℤ) : ℚ) := by
  simp [jsDiv, hb, JSNum.mulC, JSNum.floorJS]

end UpdateLemmas

/-! ## Selection (`#pick`) -/

/-- Rendered background colour of the `#loupe` element per `color-picker.css`:
`hsl(var(--hue, 0) var(--saturation, 100%) 50%)` — the hue and saturation the
style layer currently resolves, falling back to 0 / 100% when the custom
properties were never set. -/
def loupeBackground (s : StyleMap) : JSNum × JSNum :=
  (s.hue.getD (.fin 0), s.saturation.getD (.fin 100))

/-- Whether `this.loupe` is assigned in the constructor of the variant under
consideration: `src/color-picker.js` never assigns it (the field is
`undefined`), while `src/unnamed/part_004` runs
`this.loupe = this.shadowRoot.getElementById('loupe')`. -/
def colorPickerJsLoupe : Option Unit := none

/-- The `part_004` variant does assign `this.loupe`. -/
def part004Loupe : Option Unit := some ()

/-- Shallow embedding of `ColorPicker.#pick`: `getComputedStyle(this.loupe)`
throws a TypeError when `this.loupe` is `undefined`; otherwise the method
stores the rendered loupe colour in `this.color` and dispatches a single
`CustomEvent('pick')` with no detail payload.  The result carries the stored
colour and the list of event names dispatched. -/
def ColorPicker.pickImpl (loupe : Option Unit) (style : StyleMap) :
    Except String ((JSNum × JSNum) × List String) :=
  match loupe with
  | none => .error "TypeError: getComputedStyle argument is undefined"
  | some _ => .ok (loupeBackground style, ["pick"])

/-- Possible targets of the `click` listener registered in a constructor. -/
inductive ClickTarget where
  | host
  | loupe
deriving DecidableEq, Repr

/-- Target of the `click` listener in `src/color-picker.js` line 19:
`this.addEventListener('click', () => this.#pick())` — the host element
itself.  (The `part_004` variant instead binds it to the loupe.) -/
def clickListenerTarget : ClickTarget := .host

/-! ## Window listener bookkeeping (`MouseController`) -/

/-- Identities of window-level listeners: the three stable arrow-function
fields of one `MouseController` instance, plus arbitrary foreign listeners. -/
inductive WinListener where
  | mm
  | md
  | mu
  | other (n : ℕ)
deriving DecidableEq, Repr

/-- DOM `window.addEventListener`: adding an already-registered listener
(same function identity) is a no-op; otherwise the listener is appended. -/
def addEventListener (s : List WinListener) (h : WinListener) : List WinListener :=
  if h ∈ s then s else s ++ [h]

/-- DOM `window.removeEventListener`: removes the listener if present. -/
def removeEventListener (s : List WinListener) (h : WinListener) : List WinListener :=
  s.erase h

/-- `MouseController.hostConnected`: subscribes `onMousemove`, `onMousedown`,
`onMouseup` on `window`, in that order. -/
def hostConnected (s : List WinListener) : List WinListener :=
  addEventListener (addEventListener (addEventListener s .mm) .md) .mu

/-- `MouseController.hostDisconnected`: removes the same three listeners. -/
def hostDisconnected (s : List WinListener) : List WinListener :=
  removeEventListener (removeEventListener (removeEventListener s .mm) .md) .mu

/-! ## Event-driven host model -/

/-- Events driving one mounted `ColorPicker` host: the three
`MouseController` handlers, the synthesized `click` on the host, and the
scheduler flushing a requested update. -/
inductive Ev where
  | mousemove (x y : ℚ)
  | mousedown
  | mouseup
  | click
  | flush
deriving DecidableEq, Repr

/-- Observable state of one mounted host: the controller's mouse state, the
scheduler's dirty flag, the published style, and counters for `#pick`
invocations and executions of `update()`. -/
structure Host where
  mouse : MouseState
  dirty : Bool
  style : StyleMap
  pickCount : Nat
  updateRuns : Nat
deriving DecidableEq, Repr

/-- One event step.  The three mouse handlers are taken from the
`MouseController` source: each writes its state field and calls
`host.requestUpdate()`.  `click` runs the host's click listener, which calls
`#pick()` once.  Modelled from the spec: `requestUpdate()` (from the
`ControllerHostMixin` loaded off unpkg, not part of this repository's source)
is a single-slot dirty flag, and `flush` is the scheduled callback that
clears the flag and runs `ColorPicker.update` once on the state current at
execution time (spec §5, §9). -/
def step (el : Layout) (h : Host) : Ev → Host
  | .mousemove px py =>
      { h with mouse := { h.mouse with pos := ⟨px, py⟩ }, dirty := true }
  | .mousedown =>
      { h with mouse := { h.mouse with down := true }, dirty := true }
  | .mouseup =>
      { h with mouse := { h.mouse with down := false }, dirty := true }
  | .click =>
      { h with pickCount := h.pickCount + 1 }
  | .flush =>
      if h.dirty then
        let r := ColorPicker.update h.mouse el h.style
        { h with style := r.1, pickCount := h.pickCount + r.2,
                 dirty := false, updateRuns := h.updateRuns + 1 }
      else h

/-- Runs a sequence of events. -/
def run (el : Layout) (h : Host) (evs : List Ev) : Host :=
  evs.foldl (step el) h

/-- Idle host with button up, pointer at `(px, py)`, nothing published yet. -/
def mkHost (px py : ℚ) : Host :=
  ⟨⟨false, ⟨px, py⟩⟩, false, s0, 0, 0⟩

/-! ## Claims -/

/-- C1: for every in-bounds update cycle the routine computes
`hue = floor(x / width * 360)` and `saturation = 100 - floor(y / height * 100)`;
for a 400×400 box at origin, pointer (200, 100) publishes hue 180 and
saturation 75, pointer (0, 0) publishes hue 0 and saturation 100, and
pointer (399, 399) publishes hue 359 and saturation 1. -/
theorem update_hue_saturation_formula :
    (∀ (m : MouseState) (el : Layout) (s : StyleMap),
      specInBounds m el →
      (ColorPicker.update m el s).1.hue =
        some (.fin ((⌊(m.pos.x - el.clientLeft) / el.clientWidth * 360⌋ : ℤ) : ℚ)) ∧
      (ColorPicker.update m el s).1.saturation =
        some (.fin (100 - ((⌊(m.pos.y - el.clientTop) / el.clientHeight * 100⌋ : ℤ) : ℚ))))
    ∧ (ColorPicker.update ⟨false, ⟨200, 100⟩⟩ layout400 s0).1.hue = some (.fin 180)
    ∧ (ColorPicker.update ⟨false, ⟨200, 100⟩⟩ layout400 s0).1.saturation = some (.fin 75)
    ∧ (ColorPicker.update ⟨false, ⟨0, 0⟩⟩ layout400 s0).1.hue = some (.fin 0)
    ∧ (ColorPicker.update ⟨false, ⟨0, 0⟩⟩ layout400 s0).1.saturation = some (.fin 100)
    ∧ (ColorPicker.update ⟨false, ⟨399, 399⟩⟩ layout400 s0).1.hue = some (.fin 359)
    ∧ (ColorPicker.update ⟨false, ⟨399, 399⟩⟩ layout400 s0).1.saturation = some (.fin 1) := by
  refine ⟨?_, ?_, ?_, ?_, ?_, ?_, ?_⟩
  · intro m el s h
    obtain ⟨hx0, hxw, hy0, hyh⟩ := h
    have hw : el.clientWidth ≠ 0 := (lt_of_le_of_lt hx0 hxw).ne'
    have hh : el.clientHeight ≠ 0 := (lt_of_le_of_lt hy0 hyh).ne'
    rw [update_noGuard m el s hxw.le hyh.le]
    simp [pipeline_fin _ _ _ hw, pipeline_fin _ _ _ hh, JSNum.subFrom]
  all_goals
    norm_num [ColorPicker.update, layout400, s0, jsDiv, JSNum.mulC,
      JSNum.floorJS, JSNum.subFrom]

/-- Witness for C1 at the concrete scenario (200, 100) on the 400×400 box. -/
theorem update_hue_saturation_formula_witness :
    specInBounds ⟨false, ⟨200, 100⟩⟩ layout400 ∧
    (ColorPicker.update ⟨false, ⟨200, 100⟩⟩ layout400 s0).1.hue =
      some (.fin ((⌊((200 : ℚ) - 0) / 400 * 360⌋ : ℤ) : ℚ)) :=
  have hb : specInBounds ⟨false, ⟨200, 100⟩⟩ layout400 := by
    constructor <;> norm_num [specInBounds, layout400]
  ⟨hb, by
    have := (update_hue_saturation_formula.1 ⟨false, ⟨200, 100⟩⟩ layout400 s0 hb).1
    simpa [layout400] using this⟩

/-- C2 counterexample: the claim says recomputation happens iff the local
position lies in `[0, width) × [0, height)`.  On the 400×400 box, the pointer
(400, 200) has `x = width` (outside the half-open box) and the pointer
(-5, -7) has negative coordinates, yet the routine recomputes and publishes in
both cases, because the code's guard is only `x > width || y > height`. -/
theorem update_bounds_check_cex :
    ((ColorPicker.update ⟨false, ⟨400, 200⟩⟩ layout400 s0).1.hue = some (.fin 360) ∧
      ¬ specInBounds ⟨false, ⟨400, 200⟩⟩ layout400) ∧
    ((ColorPicker.update ⟨false, ⟨-5, -7⟩⟩ layout400 s0).1.hue = some (.fin (-5)) ∧
      ¬ specInBounds ⟨false, ⟨-5, -7⟩⟩ layout400) := by
  refine ⟨⟨?_, ?_⟩, ⟨?_, ?_⟩⟩ <;>
    norm_num [ColorPicker.update, layout400, s0, specInBounds, jsDiv,
      JSNum.mulC, JSNum.floorJS, JSNum.subFrom]

/-- C2 amended: the update routine aborts recomputation exactly when
`localPosition.x > width` or `localPosition.y > height`; the derived
properties are recomputed if and only if `x ≤ width` and `y ≤ height`, so
negative local coordinates and `x = width` or `y = height` are accepted, not
rejected. -/
theorem update_bounds_check_amended :
    ∀ (m : MouseState) (el : Layout) (s : StyleMap),
      (m.pos.x - el.clientLeft ≤ el.clientWidth →
        m.pos.y - el.clientTop ≤ el.clientHeight →
        ColorPicker.update m el s =
          (⟨some (m.pos.x - el.clientLeft), some (m.pos.y - el.clientTop),
            some (((jsDiv (m.pos.x - el.clientLeft) el.clientWidth).mulC 360).floorJS),
            some (JSNum.subFrom 100
              (((jsDiv (m.pos.y - el.clientTop) el.clientHeight).mulC 100).floorJS)),
            some (if m.down then .white else .black)⟩,
           if m.down then 1 else 0)) ∧
      (el.clientWidth < m.pos.x - el.clientLeft ∨
        el.clientHeight < m.pos.y - el.clientTop →
        ColorPicker.update m el s = (s, 0)) :=
  fun m el s =>
    ⟨fun hx hy => update_noGuard m el s hx hy, fun h => update_guard m el s h⟩

/-- Witness for C2's amended theorem on the 400×400 box: the pointer
(400, 200) (accepted) and the pointer (500, 0) (rejected). -/
theorem update_bounds_check_amended_witness :
    (ColorPicker.update ⟨false, ⟨400, 200⟩⟩ layout400 s0).1.hue =
      some (((jsDiv 400 400).mulC 360).floorJS) ∧
    ColorPicker.update ⟨false, ⟨500, 0⟩⟩ layout400 s0 = (s0, 0) := by
  constructor
  · have h := (update_bounds_check_amended ⟨false, ⟨400, 200⟩⟩ layout400 s0).1
      (by norm_num [layout400]) (by norm_num [layout400])
    rw [h]
    norm_num [layout400]
  · exact (update_bounds_check_amended ⟨false, ⟨500, 0⟩⟩ layout400 s0).2
      (by norm_num [layout400])

/-- C3: one execution of the update routine on a pointer with
`localPosition.x > width` or `localPosition.y > height` leaves every
previously published property (and the pick count) untouched; in particular a
pointer at (401, 50) over the 400×400 box at origin changes nothing. -/
theorem update_out_of_bounds_noop :
    (∀ (m : MouseState) (el : Layout) (s : StyleMap),
      el.clientWidth < m.pos.x - el.clientLeft ∨
        el.clientHeight < m.pos.y - el.clientTop →
      ColorPicker.update m el s = (s, 0)) ∧
    ∀ (d : Bool) (s : StyleMap),
      ColorPicker.update ⟨d, ⟨401, 50⟩⟩ layout400 s = (s, 0) := by
  refine ⟨fun m el s h => update_guard m el s h, fun d s => ?_⟩
  apply update_guard
  left
  norm_num [layout400]

/-- Witness for C3: the (401, 50) pointer over the 400×400 box leaves a
populated style map exactly as it was. -/
theorem update_out_of_bounds_noop_witness :
    ((401 : ℚ) - layout400.clientLeft > layout400.clientWidth ∨
      (50 : ℚ) - layout400.clientTop > layout400.clientHeight) ∧
    ColorPicker.update ⟨true, ⟨401, 50⟩⟩ layout400
      ⟨some 7, some 8, some (.fin 9), some (.fin 10), some .black⟩ =
      (⟨some 7, some 8, some (.fin 9), some (.fin 10), some .black⟩, 0) :=
  ⟨Or.inl (by norm_num [layout400]),
   update_out_of_bounds_noop.1 ⟨true, ⟨401, 50⟩⟩ layout400 _
     (Or.inl (by norm_num [layout400]))⟩

/-- C4 counterexample: with the button held down but the pointer at (401, 50)
over the 400×400 box, the update cycle performs zero `#pick()` calls, not
one — the early return skips the dragging check. -/
theorem drag_pick_per_cycle_cex :
    (MouseState.mk true ⟨401, 50⟩).down = true ∧
    (ColorPicker.update ⟨true, ⟨401, 50⟩⟩ layout400 s0).2 = 0 := by
  refine ⟨rfl, ?_⟩
  rw [update_guard _ _ _ (Or.inl (by norm_num [layout400]))]

/-- C4 amended: for every update cycle that is not cut short by the
out-of-bounds early return (`x ≤ width` and `y ≤ height`), the cycle performs
exactly one `#pick()` call when the button is down and none when it is up;
cycles with the button up never pick, and out-of-bounds cycles never pick
regardless of the button. -/
theorem drag_pick_per_cycle_amended :
    ∀ (m : MouseState) (el : Layout) (s : StyleMap),
      (m.pos.x - el.clientLeft ≤ el.clientWidth →
        m.pos.y - el.clientTop ≤ el.clientHeight →
        (ColorPicker.update m el s).2 = if m.down then 1 else 0) ∧
      (m.down = false → (ColorPicker.update m el s).2 = 0) := by
  intro m el s
  constructor
  · intro hx hy
    rw [update_noGuard m el s hx hy]
  · intro hdown
    simp only [ColorPicker.update, hdown, Bool.false_eq_true, if_false]
    split <;> rfl

/-- Witness for C4's amended theorem: in-bounds drag at (200, 100) picks
once; the same position with the button up picks nothing. -/
theorem drag_pick_per_cycle_amended_witness :
    (ColorPicker.update ⟨true, ⟨200, 100⟩⟩ layout400 s0).2 = 1 ∧
    (ColorPicker.update ⟨false, ⟨200, 100⟩⟩ layout400 s0).2 = 0 := by
  constructor
  · have h := ((drag_pick_per_cycle_amended ⟨true, ⟨200, 100⟩⟩ layout400 s0).1
      (by norm_num [layout400]) (by norm_num [layout400]))
    simpa using h
  · exact (drag_pick_per_cycle_amended ⟨false, ⟨200, 100⟩⟩ layout400 s0).2 rfl

/-- C6: the claim is right about the intended behaviour — `#pick()` reads the
colour the style layer renders at the loupe, stores it as the element's
`color` property and dispatches a single payload-free `pick` event, as the
`part_004` variant does — but `src/color-picker.js` never assigns
`this.loupe` in its constructor, so there every `#pick()` invocation calls
`getComputedStyle(undefined)` and throws a TypeError instead. -/
theorem pick_undefined_loupe_bug :
    (∀ (s : StyleMap), ColorPicker.pickImpl colorPickerJsLoupe s =
      .error "TypeError: getComputedStyle argument is undefined") ∧
    (∀ (s : StyleMap),
      ColorPicker.pickImpl part004Loupe s = .ok (loupeBackground s, ["pick"])) :=
  ⟨fun _ => rfl, fun _ => rfl⟩

/-- C7: for pointer positions strictly inside the box, the published hue is
an integer in `[0, 360)`, the published saturation is an integer in
`[0, 100]`, and both depend only on `(x, y, width, height)` — not on the
button state or the previously published style. -/
theorem derived_ranges_deterministic :
    ∀ (m : MouseState) (el : Layout) (s : StyleMap),
      0 < m.pos.x - el.clientLeft → m.pos.x - el.clientLeft < el.clientWidth →
      0 < m.pos.y - el.clientTop → m.pos.y - el.clientTop < el.clientHeight →
      (∃ n : ℤ, (ColorPicker.update m el s).1.hue = some (.fin (n : ℚ)) ∧
        0 ≤ n ∧ n < 360) ∧
      (∃ k : ℤ, (ColorPicker.update m el s).1.saturation = some (.fin (k : ℚ)) ∧
        0 ≤ k ∧ k ≤ 100) ∧
      (∀ (m2 : MouseState) (s2 : StyleMap), m2.pos = m.pos →
        (ColorPicker.update m2 el s2).1.hue = (ColorPicker.update m el s).1.hue ∧
        (ColorPicker.update m2 el s2).1.saturation =
          (ColorPicker.update m el s).1.saturation) := by
  intro m el s hx0 hxw hy0 hyh
  have hw0 : 0 < el.clientWidth := hx0.trans hxw
  have hh0 : 0 < el.clientHeight := hy0.trans hyh
  have hhue : (ColorPicker.update m el s).1.hue =
      some (.fin ((⌊(m.pos.x - el.clientLeft) / el.clientWidth * 360⌋ : ℤ) : ℚ)) := by
    rw [update_noGuard m el s hxw.le hyh.le]
    simp [pipeline_fin _ _ _ hw0.ne']
  have hsat : (ColorPicker.update m el s).1.saturation =
      some (.fin (100 - ((⌊(m.pos.y - el.clientTop) / el.clientHeight * 100⌋ : ℤ) : ℚ))) := by
    rw [update_noGuard m el s hxw.le hyh.le]
    simp [pipeline_fin _ _ _ hh0.ne', JSNum.subFrom]
  have hdivx : (m.pos.x - el.clientLeft) / el.clientWidth < 1 :=
    (div_lt_one hw0).mpr hxw
  have hdivy : (m.pos.y - el.clientTop) / el.clientHeight < 1 :=
    (div_lt_one hh0).mpr hyh
  refine ⟨⟨⌊(m.pos.x - el.clientLeft) / el.clientWidth * 360⌋, hhue, ?_, ?_⟩,
    ⟨100 - ⌊(m.pos.y - el.clientTop) / el.clientHeight * 100⌋, ?_, ?_, ?_⟩, ?_⟩
  · exact Int.floor_nonneg.mpr
      (mul_nonneg (div_nonneg hx0.le hw0.le) (by norm_num))
  · apply Int.floor_lt.mpr
    push_cast
    calc (m.pos.x - el.clientLeft) / el.clientWidth * 360 < 1 * 360 :=
          mul_lt_mul_of_pos_right hdivx (by norm_num)
      _ = 360 := one_mul 360
  · rw [hsat]
    push_cast
    ring_nf
  · have : ⌊(m.pos.y - el.clientTop) / el.clientHeight * 100⌋ < 100 := by
      apply Int.floor_lt.mpr
      push_cast
      calc (m.pos.y - el.clientTop) / el.clientHeight * 100 < 1 * 100 :=
            mul_lt_mul_of_pos_right hdivy (by norm_num)
        _ = 100 := one_mul 100
    omega
  · have : 0 ≤ ⌊(m.pos.y - el.clientTop) / el.clientHeight * 100⌋ :=
      Int.floor_nonneg.mpr (mul_nonneg (div_nonneg hy0.le hh0.le) (by norm_num))
    omega
  · intro m2 s2 hpos
    rw [update_noGuard m el s hxw.le hyh.le,
      update_noGuard m2 el s2 (by rw [hpos]; exact hxw.le) (by rw [hpos]; exact hyh.le)]
    rw [hpos]
    exact ⟨rfl, rfl⟩

/-- Witness for C7 at pointer (200, 100) on the 400×400 box. -/
theorem derived_ranges_deterministic_witness :
    (0 : ℚ) < 200 - layout400.clientLeft ∧
    (∃ n : ℤ, (ColorPicker.update ⟨false, ⟨200, 100⟩⟩ layout400 s0).1.hue =
      some (.fin (n : ℚ)) ∧ 0 ≤ n ∧ n < 360) :=
  ⟨by norm_num [layout400],
   (derived_ranges_deterministic ⟨false, ⟨200, 100⟩⟩ layout400 s0
     (by norm_num [layout400]) (by norm_num [layout400])
     (by norm_num [layout400]) (by norm_num [layout400])).1⟩

/-- Connecting appends exactly the three controller handlers when none of
them is already registered. -/
lemma hostConnected_of_not_mem (s : List WinListener)
    (h1 : WinListener.mm ∉ s) (h2 : WinListener.md ∉ s) (h3 : WinListener.mu ∉ s) :
    hostConnected s = s ++ [.mm, .md, .mu] := by
  simp [hostConnected, addEventListener, h1, h2, h3]

/-- Disconnecting after connecting restores the original listener set. -/
lemma hostDisconnected_hostConnected (s : List WinListener)
    (h1 : WinListener.mm ∉ s) (h2 : WinListener.md ∉ s) (h3 : WinListener.mu ∉ s) :
    hostDisconnected (hostConnected s) = s := by
  rw [hostConnected_of_not_mem s h1 h2 h3]
  unfold hostDisconnected removeEventListener
  rw [List.erase_append_right _ h1]
  show ((s ++ [WinListener.md, WinListener.mu]).erase .md).erase .mu = s
  rw [List.erase_append_right _ h2]
  show (s ++ [WinListener.mu]).erase .mu = s
  rw [List.erase_append_right _ h3]
  simp

/-- C8: one unmount removes exactly the move/press/release subscriptions the
matching mount added, so any number of matched mount/unmount cycles leaves
the window's listener list unchanged, and after a re-mount each of the three
handlers is registered exactly once (each pointer event notifies the owner at
most once — no doubled update rate after remount). -/
theorem mount_unmount_listener_invariant :
    ∀ (s : List WinListener) (n : ℕ),
      WinListener.mm ∉ s → WinListener.md ∉ s → WinListener.mu ∉ s →
      (fun t => hostDisconnected (hostConnected t))^[n] s = s ∧
      (hostConnected ((fun t => hostDisconnected (hostConnected t))^[n] s)).count .mm = 1 ∧
      (hostConnected ((fun t => hostDisconnected (hostConnected t))^[n] s)).count .md = 1 ∧
      (hostConnected ((fun t => hostDisconnected (hostConnected t))^[n] s)).count .mu = 1 := by
  intro s n h1 h2 h3
  have hiter : (fun t => hostDisconnected (hostConnected t))^[n] s = s := by
    induction n with
    | zero => rfl
    | succ k ih =>
        rw [Function.iterate_succ_apply', ih,
          hostDisconnected_hostConnected s h1 h2 h3]
  refine ⟨hiter, ?_, ?_, ?_⟩ <;>
    rw [hiter, hostConnected_of_not_mem s h1 h2 h3, List.count_append] <;>
    simp [List.count_eq_zero.mpr, h1, h2, h3]

/-- Witness for C8: two mount/unmount cycles over a window that already has
one foreign listener, then a re-mount. -/
theorem mount_unmount_listener_invariant_witness :
    (fun t => hostDisconnected (hostConnected t))^[2] [WinListener.other 0] =
      [WinListener.other 0] ∧
    (hostConnected ((fun t => hostDisconnected (hostConnected t))^[2]
      [WinListener.other 0])).count .mm = 1 :=
  have h := mount_unmount_listener_invariant [WinListener.other 0] 2
    (by decide) (by decide) (by decide)
  ⟨h.1, h.2.1⟩

/-- Running a nonempty batch of move notifications leaves everything but the
pointer position and the dirty flag untouched, and only the final position
survives. -/
lemma run_moves (el : Layout) (ms : List (ℚ × ℚ)) (p : ℚ × ℚ) :
    ∀ h : Host, run el h ((ms ++ [p]).map fun q => Ev.mousemove q.1 q.2) =
      { h with mouse := ⟨h.mouse.down, ⟨p.1, p.2⟩⟩, dirty := true } := by
  induction ms with
  | nil => intro h; rfl
  | cons q ms ih =>
      intro h
      show run el (step el h (.mousemove q.1 q.2))
        ((ms ++ [p]).map fun r => Ev.mousemove r.1 r.2) = _
      rw [ih]
      rfl

/-- C9: any window of pointer-state notifications followed by one scheduler
flush executes the update routine exactly once, and that execution observes
only the last notified position — intermediate positions in the window are
never seen by `ColorPicker.update` (spec-modelled coalescing of
`requestUpdate`, §5). -/
theorem requestUpdate_coalescing :
    ∀ (el : Layout) (h : Host) (ms : List (ℚ × ℚ)) (p : ℚ × ℚ),
      (run el h (((ms ++ [p]).map fun q => Ev.mousemove q.1 q.2) ++
        [.flush])).updateRuns = h.updateRuns + 1 ∧
      (run el h (((ms ++ [p]).map fun q => Ev.mousemove q.1 q.2) ++
        [.flush])).style =
        (ColorPicker.update ⟨h.mouse.down, ⟨p.1, p.2⟩⟩ el h.style).1 ∧
      (run el h (((ms ++ [p]).map fun q => Ev.mousemove q.1 q.2) ++
        [.flush])).pickCount =
        h.pickCount + (ColorPicker.update ⟨h.mouse.down, ⟨p.1, p.2⟩⟩ el h.style).2 := by
  intro el h ms p
  have hsplit : run el h (((ms ++ [p]).map fun q => Ev.mousemove q.1 q.2) ++
      [.flush]) = step el (run el h ((ms ++ [p]).map fun q => Ev.mousemove q.1 q.2))
        .flush := by
    unfold run
    rw [List.foldl_append]
    rfl
  rw [hsplit, run_moves el ms p h]
  exact ⟨rfl, rfl, rfl⟩

/-- C5 counterexample: in `src/color-picker.js` the `click` listener is bound
to the host element itself, not to the loupe indicator region, and a discrete
press-release over the 400×400 box with the pointer in bounds at (200, 100)
performs two `#pick()` calls, not one: the update cycle flushed after the
press sees the button down and picks, and the synthesized click picks again. -/
theorem discrete_click_cex :
    (run layout400 (mkHost 200 100)
      [.mousedown, .flush, .mouseup, .click, .flush]).pickCount = 2 ∧
    clickListenerTarget = ClickTarget.host := by
  refine ⟨?_, rfl⟩
  norm_num [run, List.foldl_cons, List.foldl_nil, step, mkHost, s0, layout400,
    ColorPicker.update]

/-- C5 amended: a discrete press+release without intervening move triggers
exactly one `#pick()` call through the click listener, which is wired
independently of the per-cycle dragging check but bound directly to the host
element rather than the indicator region; in addition, the update cycle
flushed between the press and the release performs its own pick whenever the
pointer is not past the box (`x ≤ width` and `y ≤ height`), so such a
press+release yields two selection attempts in total, and one when the
pointer is past the box. -/
theorem discrete_click_amended :
    ∀ (px py : ℚ), px ≤ 400 → py ≤ 400 →
      (run layout400 (mkHost px py)
        [.mousedown, .flush, .mouseup, .click, .flush]).pickCount = 2 ∧
      (∀ (h : Host), (step layout400 h .click).pickCount = h.pickCount + 1) ∧
      (∀ (qx qy : ℚ), 400 < qx →
        (run layout400 (mkHost qx qy)
          [.mousedown, .flush, .mouseup, .click, .flush]).pickCount = 1) ∧
      clickListenerTarget = ClickTarget.host := by
  intro px py hpx hpy
  refine ⟨?_, fun h => rfl, fun qx qy hqx => ?_, rfl⟩
  · have u1 : (ColorPicker.update ⟨true, ⟨px, py⟩⟩ layout400 s0).2 = 1 := by
      rw [update_noGuard _ _ _ (by simpa [layout400] using hpx)
        (by simpa [layout400] using hpy)]
      rfl
    have u2 : ∀ s : StyleMap,
        (ColorPicker.update ⟨false, ⟨px, py⟩⟩ layout400 s).2 = 0 := fun s => by
      rw [update_noGuard _ _ _ (by simpa [layout400] using hpx)
        (by simpa [layout400] using hpy)]
      rfl
    simp [run, List.foldl_cons, List.foldl_nil, step, mkHost, u1, u2]
  · have g : ∀ (d : Bool) (s : StyleMap),
        ColorPicker.update ⟨d, ⟨qx, qy⟩⟩ layout400 s = (s, 0) := fun d s =>
      update_guard _ _ _ (Or.inl (by simpa [layout400] using hqx))
    simp [run, List.foldl_cons, List.foldl_nil, step, mkHost, g]

/-- Witness for C5's amended theorem at the in-bounds pointer (300, 50). -/
theorem discrete_click_amended_witness :
    (run layout400 (mkHost 300 50)
      [.mousedown, .flush, .mouseup, .click, .flush]).pickCount = 2 ∧
    clickListenerTarget = ClickTarget.host :=
  have h := discrete_click_amended 300 50 (by norm_num) (by norm_num)
  ⟨h.1, h.2.2.2⟩

/-- C10 counterexample: on a box with height 0 (width 400) and pointer
(-1, -1), the cycle passes the bounds check and divides by zero, but the
published non-numeric value is the saturation and it is +Infinity — not NaN
and not -Infinity as the claim's parenthesis states — while the published hue
is the ordinary integer -1. -/
theorem division_by_zero_cex :
    (ColorPicker.update ⟨false, ⟨-1, -1⟩⟩ ⟨0, 0, 400, 0⟩ s0).1.saturation =
      some JSNum.inf ∧
    (ColorPicker.update ⟨false, ⟨-1, -1⟩⟩ ⟨0, 0, 400, 0⟩ s0).1.hue =
      some (.fin (-1)) ∧
    JSNum.inf ≠ JSNum.nan ∧ JSNum.inf ≠ JSNum.ninf := by
  refine ⟨?_, ?_, by decide, by decide⟩ <;>
    norm_num [ColorPicker.update, s0, jsDiv, JSNum.mulC, JSNum.floorJS,
      JSNum.subFrom]

/-- C10 amended: the division is unguarded.  Whenever the local position has
`x ≤ 0` and `y ≤ 0` (and the box dimensions are nonnegative, as DOM client
sizes always are), the cycle passes the bounds check and publishes; if the
width is 0 the published hue is non-numeric (NaN when `x = 0`, -Infinity when
`x < 0`), and if the height is 0 the published saturation is non-numeric (NaN
when `y = 0`, +Infinity when `y < 0`) — in every zero-dimension case a
non-numeric value replaces the documented integer ranges. -/
theorem division_by_zero_amended :
    ∀ (m : MouseState) (el : Layout) (s : StyleMap),
      m.pos.x - el.clientLeft ≤ 0 → m.pos.y - el.clientTop ≤ 0 →
      0 ≤ el.clientWidth → 0 ≤ el.clientHeight →
      (ColorPicker.update m el s).1.x = some (m.pos.x - el.clientLeft) ∧
      (el.clientWidth = 0 →
        (ColorPicker.update m el s).1.hue =
          some (if m.pos.x - el.clientLeft = 0 then JSNum.nan else JSNum.ninf)) ∧
      (el.clientHeight = 0 →
        (ColorPicker.update m el s).1.saturation =
          some (if m.pos.y - el.clientTop = 0 then JSNum.nan else JSNum.inf)) := by
  intro m el s hx hy hw hh
  rw [update_noGuard m el s (hx.trans hw) (hy.trans hh)]
  refine ⟨rfl, fun hw0 => ?_, fun hh0 => ?_⟩
  · rcases lt_or_eq_of_le hx with hlt | heq
    · simp [hw0, jsDiv, JSNum.mulC, JSNum.floorJS, hlt.ne, not_lt_of_lt hlt, hlt]
    · simp [hw0, jsDiv, JSNum.mulC, JSNum.floorJS, ← heq]
  · rcases lt_or_eq_of_le hy with hlt | heq
    · simp [hh0, jsDiv, JSNum.mulC, JSNum.floorJS, JSNum.subFrom, hlt.ne,
        not_lt_of_lt hlt, hlt]
    · simp [hh0, jsDiv, JSNum.mulC, JSNum.floorJS, JSNum.subFrom, ← heq]

/-- Witness for C10's amended theorem on a 0×0 box with pointer (-2, -3). -/
theorem division_by_zero_amended_witness :
    (ColorPicker.update ⟨false, ⟨-2, -3⟩⟩ ⟨0, 0, 0, 0⟩ s0).1.hue =
      some JSNum.ninf ∧
    (ColorPicker.update ⟨false, ⟨-2, -3⟩⟩ ⟨0, 0, 0, 0⟩ s0).1.saturation =
      some JSNum.inf := by
  have h := division_by_zero_amended ⟨false, ⟨-2, -3⟩⟩ ⟨0, 0, 0, 0⟩ s0
    (by norm_num) (by norm_num) (by norm_num) (by norm_num)
  refine ⟨?_, ?_⟩
  · have := h.2.1 rfl
    simpa using this
  · have := h.2.2 rfl
    simpa using this
